import Mathlib

/-!
# Verification of `_modules/profile.py` (macOS configuration-profile module)

A shallow embedding of the salt execution module `profile.py`, which manages
macOS configuration profiles (`.mobileconfig`).  Python dictionaries are
association lists of `String × Value` pairs that keep insertion order and hold
at most one binding per key (mirroring `dict` update semantics); plist
serialization sorts keys, exactly as Python 2's `plistlib` does.  Fallible
Python code (statements that can raise `KeyError` / `TypeError` /
`CommandExecutionError`) is embedded with `Except`.
-/

set_option maxRecDepth 40000

/-- A Python/plist value as used by the module: strings, integers, booleans,
arrays and dictionaries. -/
inductive Value where
  | str : String → Value
  | int : Int → Value
  | bool : Bool → Value
  | arr : List Value → Value
  | dict : List (String × Value) → Value
deriving Repr

/-- Exceptions the embedded fragments of the module can raise. -/
inductive PyError where
  | keyError
  | typeError
  | commandExecutionError
deriving DecidableEq, Repr

mutual

/-- Decidable equality on `Value` (the automatic derivation does not handle
the nested lists). -/
def Value.decEq : (a b : Value) → Decidable (a = b)
  | .str a, b => match b with
    | .str b2 => match String.decEq a b2 with
      | isTrue h => isTrue (by rw [h])
      | isFalse h => isFalse (by intro hh; cases hh; exact h rfl)
    | .int _ => isFalse nofun
    | .bool _ => isFalse nofun
    | .arr _ => isFalse nofun
    | .dict _ => isFalse nofun
  | .int a, b => match b with
    | .int b2 => match Int.instDecidableEq a b2 with
      | isTrue h => isTrue (by rw [h])
      | isFalse h => isFalse (by intro hh; cases hh; exact h rfl)
    | .str _ => isFalse nofun
    | .bool _ => isFalse nofun
    | .arr _ => isFalse nofun
    | .dict _ => isFalse nofun
  | .bool a, b => match b with
    | .bool b2 => match Bool.decEq a b2 with
      | isTrue h => isTrue (by rw [h])
      | isFalse h => isFalse (by intro hh; cases hh; exact h rfl)
    | .str _ => isFalse nofun
    | .int _ => isFalse nofun
    | .arr _ => isFalse nofun
    | .dict _ => isFalse nofun
  | .arr a, b => match b with
    | .arr b2 => match Value.decEqArr a b2 with
      | isTrue h => isTrue (by rw [h])
      | isFalse h => isFalse (by intro hh; cases hh; exact h rfl)
    | .str _ => isFalse nofun
    | .int _ => isFalse nofun
    | .bool _ => isFalse nofun
    | .dict _ => isFalse nofun
  | .dict a, b => match b with
    | .dict b2 => match Value.decEqDict a b2 with
      | isTrue h => isTrue (by rw [h])
      | isFalse h => isFalse (by intro hh; cases hh; exact h rfl)
    | .str _ => isFalse nofun
    | .int _ => isFalse nofun
    | .bool _ => isFalse nofun
    | .arr _ => isFalse nofun

/-- Decidable equality for lists of values. -/
def Value.decEqArr : (a b : List Value) → Decidable (a = b)
  | [], [] => isTrue rfl
  | [], _ :: _ => isFalse nofun
  | _ :: _, [] => isFalse nofun
  | x :: xs, y :: ys => match Value.decEq x y, Value.decEqArr xs ys with
    | isTrue h1, isTrue h2 => isTrue (by rw [h1, h2])
    | isFalse h1, _ => isFalse (by intro hh; injection hh with hh1 hh2; exact h1 hh1)
    | isTrue _, isFalse h2 => isFalse (by intro hh; injection hh with hh1 hh2; exact h2 hh2)

/-- Decidable equality for key/value pair lists. -/
def Value.decEqDict : (a b : List (String × Value)) → Decidable (a = b)
  | [], [] => isTrue rfl
  | [], _ :: _ => isFalse nofun
  | _ :: _, [] => isFalse nofun
  | (k, v) :: xs, (k2, v2) :: ys =>
    match String.decEq k k2, Value.decEq v v2, Value.decEqDict xs ys with
    | isTrue h0, isTrue h1, isTrue h2 => isTrue (by rw [h0, h1, h2])
    | isFalse h0, _, _ =>
      isFalse (by intro hh; injection hh with hh1 hh2; exact h0 (congrArg Prod.fst hh1))
    | isTrue _, isFalse h1, _ =>
      isFalse (by intro hh; injection hh with hh1 hh2; exact h1 (congrArg Prod.snd hh1))
    | isTrue _, isTrue _, isFalse h2 =>
      isFalse (by intro hh; injection hh with hh1 hh2; exact h2 hh2)

end

instance : DecidableEq Value := Value.decEq

/-- A payload dictionary (one entry of a profile's content array). -/
abbrev Payload := List (String × Value)

/-- The structure parsed from `/usr/bin/profiles -P -o`: a mapping from domain
(computer level / user name) to the list of installed payload records. -/
abbrev ProfilesMap := List (String × List Payload)

/-- `d[k]` lookup of a Python dict: the value bound to `k`, if any. -/
def dictGet (k : String) : Payload → Option Value
  | [] => none
  | (k2, v) :: rest => if k2 = k then some v else dictGet k rest

/-- `d[k] = v` of a Python dict: replace the binding in place, or append it. -/
def dictSet (k : String) (v : Value) : Payload → Payload
  | [] => [(k, v)]
  | (k2, v2) :: rest => if k2 = k then (k2, v) :: rest else (k2, v2) :: dictSet k v rest

/-- `del d[k]` of a Python dict. -/
def dictDel (k : String) : Payload → Payload
  | [] => []
  | (k2, v) :: rest => if k2 = k then dictDel k rest else (k2, v) :: dictDel k rest

/-- `k in d` of a Python dict. -/
def dictHasKey (k : String) (d : Payload) : Bool :=
  (dictGet k d).isSome

/-! ## `plistlib.writePlistToString` (Python 2.7)

The writer emits an XML header, then the value tree, one element per line,
indented with one tab per nesting level.  Dictionary items are written in
sorted key order (`items.sort()` in `PlistWriter.writeDict`), which is what
makes the serialization — and hence the derived payload UUID — a function of
the dictionary's key/value mapping rather than of insertion order. -/

/-- `&`, `<` and `>` are escaped (`plistlib._escapeAndEncode`). -/
def escapeChar (c : Char) : String :=
  if c = '&' then "&amp;"
  else if c = '<' then "&lt;"
  else if c = '>' then "&gt;"
  else String.mk [c]

/-- XML-escape a string. -/
def escapeXml (s : String) : String :=
  String.join (s.data.map escapeChar)

/-- Decimal digits of a natural number (fuel-indexed so that it reduces in the
kernel; any `fuel > log10 n` gives the exact digits). -/
def natDecDigits : Nat → Nat → List Char
  | 0, _ => []
  | fuel + 1, n =>
    if n < 10 then [Char.ofNat (48 + n)]
    else natDecDigits fuel (n / 10) ++ [Char.ofNat (48 + n % 10)]

/-- `"%d" % value` for a Python integer. -/
def intDecimal : Int → String
  | .ofNat n => String.mk (natDecDigits (n + 1) n)
  | .negSucc m => "-" ++ String.mk (natDecDigits (m + 2) (m + 1))

/-- Lexicographic comparison of code-point sequences: the byte-string `≤` of
Python 2, which orders the keys of a written dict (keys are ASCII here, where
code-point order and byte order agree). -/
def codesLe : List Nat → List Nat → Bool
  | [], _ => true
  | _ :: _, [] => false
  | x :: xs, y :: ys =>
    if x < y then true else if y < x then false else codesLe xs ys

/-- Byte-lexicographic `≤` on strings. -/
def keyLe (a b : String) : Bool :=
  codesLe (a.data.map Char.toNat) (b.data.map Char.toNat)

/-- Insert a pair into a key-sorted pair list (byte-lexicographic key order,
as Python 2 compares the tuples produced by `dict.items()`). -/
def insertByKey (kv : String × Value) : List (String × Value) → List (String × Value)
  | [] => [kv]
  | kv2 :: rest => if keyLe kv.1 kv2.1 then kv :: kv2 :: rest else kv2 :: insertByKey kv rest

/-- Sort a pair list by key. -/
def sortByKey : List (String × Value) → List (String × Value)
  | [] => []
  | kv :: rest => insertByKey kv (sortByKey rest)

mutual

/-- Recursively sort every dictionary of a value tree by key.  Hoisting the
sort out of the line writer keeps the writer structurally recursive; the
emitted lines are those of `plistlib`, which sorts each dict as it writes it. -/
def sortValue : Value → Value
  | .str s => .str s
  | .int i => .int i
  | .bool b => .bool b
  | .arr xs => .arr (sortArr xs)
  | .dict kvs => .dict (sortByKey (sortDict kvs))

/-- Sort the dictionaries inside every element of an array. -/
def sortArr : List Value → List Value
  | [] => []
  | x :: xs => sortValue x :: sortArr xs

/-- Sort the dictionaries inside every value of a pair list. -/
def sortDict : List (String × Value) → List (String × Value)
  | [] => []
  | (k, v) :: rest => (k, sortValue v) :: sortDict rest

end

/-- `indent * indentLevel` of `PlistWriter.writeln`. -/
def tabs (n : Nat) : String :=
  String.mk (List.replicate n '\t')

mutual

/-- The lines `PlistWriter.writeValue` emits for a (pre-sorted) value at the
given indent level. -/
def plistLines (lvl : Nat) : Value → List String
  | .str s => [tabs lvl ++ "<string>" ++ escapeXml s ++ "</string>"]
  | .int i => [tabs lvl ++ "<integer>" ++ intDecimal i ++ "</integer>"]
  | .bool b => [tabs lvl ++ (if b then "<true/>" else "<false/>")]
  | .arr xs => (tabs lvl ++ "<array>") :: plistArrLines (lvl + 1) xs ++ [tabs lvl ++ "</array>"]
  | .dict kvs => (tabs lvl ++ "<dict>") :: plistDictLines (lvl + 1) kvs ++ [tabs lvl ++ "</dict>"]

/-- Lines of the elements of an array. -/
def plistArrLines (lvl : Nat) : List Value → List String
  | [] => []
  | x :: xs => plistLines lvl x ++ plistArrLines lvl xs

/-- Lines of the items of a dictionary: a `<key>` line, then the value. -/
def plistDictLines (lvl : Nat) : List (String × Value) → List String
  | [] => []
  | (k, v) :: rest =>
    (tabs lvl ++ "<key>" ++ escapeXml k ++ "</key>") :: plistLines lvl v ++ plistDictLines lvl rest

end

/-- `plistlib.writePlistToString(root)`: XML header, `<plist>` element with the
value tree, trailing newline after every line. -/
def writePlistToString (root : Value) : String :=
  String.join
    ((["<?xml version=\"1.0\" encoding=\"UTF-8\"?>",
       "<!DOCTYPE plist PUBLIC \"-//Apple//DTD PLIST 1.0//EN\" \"http://www.apple.com/DTDs/PropertyList-1.0.dtd\">",
       "<plist version=\"1.0\">"]
      ++ plistLines 0 (sortValue root)
      ++ ["</plist>"]).map (fun line => line ++ "\n"))

/-- UTF-8 encoding of one character. -/
def utf8Char (c : Char) : List Nat :=
  let n := c.toNat
  if n < 128 then [n]
  else if n < 2048 then [192 + n / 64, 128 + n % 64]
  else if n < 65536 then [224 + n / 4096, 128 + n / 64 % 64, 128 + n % 64]
  else [240 + n / 262144, 128 + n / 4096 % 64, 128 + n / 64 % 64, 128 + n % 64]

/-- The byte string a Python `str` holds (the plist writer encodes UTF-8). -/
def strBytes (s : String) : List Nat :=
  (s.data.map utf8Char).join

/-! ## `hashlib.md5` (RFC 1321) -/

/-- The per-round sine-derived constants `K` of MD5. -/
def md5K : List Nat :=
  [0xd76aa478, 0xe8c7b756, 0x242070db, 0xc1bdceee,
   0xf57c0faf, 0x4787c62a, 0xa8304613, 0xfd469501,
   0x698098d8, 0x8b44f7af, 0xffff5bb1, 0x895cd7be,
   0x6b901122, 0xfd987193, 0xa679438e, 0x49b40821,
   0xf61e2562, 0xc040b340, 0x265e5a51, 0xe9b6c7aa,
   0xd62f105d, 0x02441453, 0xd8a1e681, 0xe7d3fbc8,
   0x21e1cde6, 0xc33707d6, 0xf4d50d87, 0x455a14ed,
   0xa9e3e905, 0xfcefa3f8, 0x676f02d9, 0x8d2a4c8a,
   0xfffa3942, 0x8771f681, 0x6d9d6122, 0xfde5380c,
   0xa4beea44, 0x4bdecfa9, 0xf6bb4b60, 0xbebfbc70,
   0x289b7ec6, 0xeaa127fa, 0xd4ef3085, 0x04881d05,
   0xd9d4d039, 0xe6db99e5, 0x1fa27cf8, 0xc4ac5665,
   0xf4292244, 0x432aff97, 0xab9423a7, 0xfc93a039,
   0x655b59c3, 0x8f0ccc92, 0xffeff47d, 0x85845dd1,
   0x6fa87e4f, 0xfe2ce6e0, 0xa3014314, 0x4e0811a1,
   0xf7537e82, 0xbd3af235, 0x2ad7d2bb, 0xeb86d391]

/-- The per-round left-rotation amounts `s` of MD5. -/
def md5S : List Nat :=
  [7, 12, 17, 22, 7, 12, 17, 22, 7, 12, 17, 22, 7, 12, 17, 22,
   5, 9, 14, 20, 5, 9, 14, 20, 5, 9, 14, 20, 5, 9, 14, 20,
   4, 11, 16, 23, 4, 11, 16, 23, 4, 11, 16, 23, 4, 11, 16, 23,
   6, 10, 15, 21, 6, 10, 15, 21, 6, 10, 15, 21, 6, 10, 15, 21]

/-- 32-bit left rotation on machine words represented as `Nat` below `2^32`. -/
def rotl32 (x n : Nat) : Nat :=
  ((x <<< n) ||| (x >>> (32 - n))) % 4294967296

/-- 32-bit bitwise complement. -/
def not32 (x : Nat) : Nat :=
  Nat.xor x 4294967295

/-- The running MD5 state `(A, B, C, D)`. -/
structure MD5State where
  a : Nat
  b : Nat
  c : Nat
  d : Nat
deriving DecidableEq, Repr

/-- One of the 64 MD5 rounds; `M` fetches the message words of the chunk. -/
def md5Round (M : Nat → Nat) (st : MD5State) (i : Nat) : MD5State :=
  let fg : Nat × Nat :=
    if i < 16 then ((Nat.land st.b st.c) ||| (Nat.land (not32 st.b) st.d), i)
    else if i < 32 then ((Nat.land st.d st.b) ||| (Nat.land (not32 st.d) st.c), (5 * i + 1) % 16)
    else if i < 48 then (Nat.xor (Nat.xor st.b st.c) st.d, (3 * i + 5) % 16)
    else (Nat.xor st.c (st.b ||| not32 st.d), (7 * i) % 16)
  let f := (fg.1 + st.a + md5K.getD i 0 + M fg.2) % 4294967296
  ⟨st.d, (st.b + rotl32 f (md5S.getD i 0)) % 4294967296, st.b, st.c⟩

/-- Process one 64-byte chunk. -/
def md5Chunk (st : MD5State) (chunk : List Nat) : MD5State :=
  let M : Nat → Nat := fun g =>
    chunk.getD (4 * g) 0 + 256 * chunk.getD (4 * g + 1) 0
      + 65536 * chunk.getD (4 * g + 2) 0 + 16777216 * chunk.getD (4 * g + 3) 0
  let r := (List.range 64).foldl (md5Round M) st
  ⟨(st.a + r.a) % 4294967296, (st.b + r.b) % 4294967296,
   (st.c + r.c) % 4294967296, (st.d + r.d) % 4294967296⟩

/-- The 8 little-endian bytes of the 64-bit message bit length. -/
def lenBytes64 (x : Nat) : List Nat :=
  [x % 256, x / 256 % 256, x / 65536 % 256, x / 16777216 % 256,
   x / 4294967296 % 256, x / 1099511627776 % 256,
   x / 281474976710656 % 256, x / 72057594037927936 % 256]

/-- MD5 padding: a `0x80` byte, zeros to 56 mod 64, the bit length. -/
def md5Pad (msg : List Nat) : List Nat :=
  msg ++ 128 :: List.replicate ((119 - msg.length % 64) % 64) 0
    ++ lenBytes64 (8 * msg.length % 18446744073709551616)

/-- Split a byte list into 64-byte chunks (fuel-indexed for kernel reduction;
`fuel = l.length` always suffices). -/
def chunks64 : Nat → List Nat → List (List Nat)
  | 0, _ => []
  | fuel + 1, l =>
    match l with
    | [] => []
    | _ => l.take 64 :: chunks64 fuel (l.drop 64)

/-- The 4 little-endian bytes of a 32-bit word. -/
def toLE4 (x : Nat) : List Nat :=
  [x % 256, x / 256 % 256, x / 65536 % 256, x / 16777216 % 256]

/-- `hashlib.md5(msg).digest()`: the 16 digest bytes. -/
def md5Bytes (msg : List Nat) : List Nat :=
  let padded := md5Pad msg
  let fin := (chunks64 padded.length padded).foldl md5Chunk
    ⟨0x67452301, 0xefcdab89, 0x98badcfe, 0x10325476⟩
  toLE4 fin.a ++ toLE4 fin.b ++ toLE4 fin.c ++ toLE4 fin.d

/-- Lowercase hex digit. -/
def hexChar (n : Nat) : Char :=
  if n < 10 then Char.ofNat (48 + n) else Char.ofNat (87 + n)

/-- The two lowercase hex digits of a byte (`binascii.hexlify`); for `b < 256`
the leading digit `b / 16 % 16` equals `b / 16`. -/
def byteHex (b : Nat) : List Char :=
  [hexChar (b / 16 % 16), hexChar (b % 16)]

/-- `binascii.hexlify(digest)` as a character list. -/
def hexlify (bs : List Nat) : List Char :=
  (bs.map byteHex).join

/-- The `re.sub` of `_content_to_uuid` on its actual input: the pattern
consumes all 32 hex digits of an MD5 hexdigest and the replacement regroups
them `8-4-4-4-12` with hyphens. -/
def groupUuid (cs : List Char) : List Char :=
  cs.take 8 ++ '-' :: ((cs.drop 8).take 4
    ++ '-' :: ((cs.drop 12).take 4
      ++ '-' :: ((cs.drop 16).take 4
        ++ '-' :: cs.drop 20)))

/-- `_content_to_uuid(payload)`: serialize the payload with
`plistlib.writePlistToString`, MD5 it, and regroup the lowercase hexdigest as
`8-4-4-4-12`. -/
def content_to_uuid (payload : Payload) : String :=
  String.mk (groupUuid (hexlify (md5Bytes (strBytes (writePlistToString (.dict payload))))))

/-! ## The module's functions -/

/-- The allow-list `needs_flag` of `_add_activedirectory_keys`: Active
Directory configuration keys that need a companion activation flag key. -/
def needs_flag : List String :=
  ["ADAllowMultiDomainAuth",
   "ADCreateMobileAccountAtLogin",
   "ADDefaultUserShell",
   "ADDomainAdminGroupList",
   "ADForceHomeLocal",
   "ADNamespace",
   "ADPacketEncrypt",
   "ADPacketSign",
   "ADPreferredDCServer",
   "ADRestrictDDNS",
   "ADTrustChangePassIntervalDays",
   "ADUseWindowsUNCPath",
   "ADWarnUserBeforeCreatingMA"]

/-- The loop body of `_add_activedirectory_keys`, iterating over a snapshot of
the payload's keys.  The source executes
`payload[needs_flag[k] + 'Flag'] = True`, which indexes the *list*
`needs_flag` with the *string* `k`: in Python 2 that raises `TypeError`
(`list indices must be integers`) before anything is written.  So the loop
raises at the first allow-listed key and otherwise leaves the payload
untouched. -/
def adKeysLoop (payload : Payload) : List String → Except PyError Payload
  | [] => .ok payload
  | k :: rest =>
    if k ∈ needs_flag then .error .typeError else adKeysLoop payload rest

/-- `_add_activedirectory_keys(payload)`. -/
def add_activedirectory_keys (payload : Payload) : Except PyError Payload :=
  adKeysLoop payload (payload.map Prod.fst)

/-- `_transform_payload(payload, identifier)`: drop any `PayloadUUID`, derive
the content UUID, default `PayloadIdentifier`, force `PayloadUUID`,
`PayloadEnabled`, `PayloadVersion`, and post-process Active-Directory
payloads.  `payload['PayloadType']` raises `KeyError` when the key is
absent. -/
def transform_payload (payload : Payload) (identifier : String) : Except PyError Payload :=
  let p0 := dictDel "PayloadUUID" payload
  let hashed_uuid := content_to_uuid p0
  let p1 :=
    if dictHasKey "PayloadIdentifier" p0 then p0
    else dictSet "PayloadIdentifier" (.str (identifier ++ "." ++ hashed_uuid)) p0
  let p2 := dictSet "PayloadUUID" (.str hashed_uuid) p1
  let p3 := dictSet "PayloadEnabled" (.bool true) p2
  let p4 := dictSet "PayloadVersion" (.int 1) p3
  match dictGet "PayloadType" p4 with
  | none => .error .keyError
  | some t =>
    if t = .str "com.apple.DirectoryService.managed" then add_activedirectory_keys p4
    else .ok p4

/-- Python truthiness of a value (`if not content`). -/
def pyTruthy : Value → Bool
  | .str s => !(s == "")
  | .int n => !(n == 0)
  | .bool b => b
  | .arr xs => !xs.isEmpty
  | .dict kvs => !kvs.isEmpty

/-- The list comprehension of `_transform_content`, left to right; the first
payload that raises aborts the whole comprehension.  A non-dict element
raises `TypeError` (item assignment on the element). -/
def transformList (identifier : String) : List Value → Except PyError (List Value)
  | [] => .ok []
  | p :: ps =>
    match p with
    | .dict kvs =>
      match transform_payload kvs identifier with
      | .error e => .error e
      | .ok q =>
        match transformList identifier ps with
        | .error e => .error e
        | .ok rest => .ok (.dict q :: rest)
    | _ => .error .typeError

/-- `_transform_content(content, identifier)`.  `none` is Python `None`; any
falsy content short-circuits to the empty list.  Truthy non-list content
raises `TypeError` (either immediately, when not iterable, or at the item
assignment inside `_transform_payload` when iterating a string or the keys of
a dict). -/
def transform_content (content : Option Value) (identifier : String) :
    Except PyError (List Value) :=
  match content with
  | none => .ok []
  | some v =>
    if pyTruthy v then
      match v with
      | .arr ps => transformList identifier ps
      | _ => .error .typeError
    else .ok []

/-- Decidable equality for `Except` results, so that concrete runs of the
embedded functions can be checked by `decide`. -/
instance {ε α : Type} [DecidableEq ε] [DecidableEq α] : DecidableEq (Except ε α)
  | .ok a, .ok b =>
    match decEq a b with
    | isTrue h => isTrue (by rw [h])
    | isFalse h => isFalse (by intro hh; cases hh; exact h rfl)
  | .ok _, .error _ => isFalse nofun
  | .error _, .ok _ => isFalse nofun
  | .error a, .error b =>
    match decEq a b with
    | isTrue h => isTrue (by rw [h])
    | isFalse h => isFalse (by intro hh; cases hh; exact h rfl)

/-- What `items()` did when it returns: its result, and whether the temporary
file and its containing directory were deleted before control left the
function. -/
structure ItemsOutcome where
  result : Except PyError ProfilesMap
  tmpfileDeleted : Bool
  tmpdirDeleted : Bool
deriving DecidableEq, Repr

/-- `items()`: run `/usr/bin/profiles -P -o <tmpfile>` (its exit status and
the plist it wrote are the two environment parameters), raise
`CommandExecutionError` on a non-zero status, otherwise parse the file,
delete it, delete the directory and return the parsed mapping.  The `raise`
sits *before* `os.unlink` / `os.rmdir` and there is no `try/finally`, so on
the failure path nothing is deleted. -/
def items (retcode : Int) (parsed : ProfilesMap) : ItemsOutcome :=
  if retcode = 0 then
    { result := .ok parsed, tmpfileDeleted := true, tmpdirDeleted := true }
  else
    { result := .error .commandExecutionError, tmpfileDeleted := false, tmpdirDeleted := false }

/-- The inner loop of `exists`: scan one domain's records;
`payload['ProfileIdentifier']` raises `KeyError` when a record lacks the
key. -/
def scanPayloads (identifier : String) : List Payload → Except PyError Bool
  | [] => .ok false
  | p :: ps =>
    match dictGet "ProfileIdentifier" p with
    | none => .error .keyError
    | some v =>
      if v = .str identifier then .ok true else scanPayloads identifier ps

/-- The outer loop of `exists`: scan every domain. -/
def scanDomains (identifier : String) : ProfilesMap → Except PyError Bool
  | [] => .ok false
  | (_, payloads) :: rest =>
    match scanPayloads identifier payloads with
    | .error e => .error e
    | .ok true => .ok true
    | .ok false => scanDomains identifier rest

/-- `exists(identifier)`, parameterized by the outcome of the
`__salt__['profile.items']()` call it starts with: an exception from `items`
propagates, otherwise every record of every domain is scanned. -/
def profile_exists (itemsResult : Except PyError ProfilesMap) (identifier : String) :
    Except PyError Bool :=
  match itemsResult with
  | .error e => .error e
  | .ok profiles => scanDomains identifier profiles

/-- `VALID_PROPERTIES` of `generate`. -/
def VALID_PROPERTIES : List String :=
  ["description", "displayname", "organization", "content", "removaldisallowed", "scope",
   "removaldate", "durationuntilremoval", "consenttext"]

/-- The orchestration/control keys the loop of `generate` explicitly skips.
They are not in `VALID_PROPERTIES`, so the dict comprehension building
`validkwargs` has already dropped them and the skip branch is unreachable. -/
def ORCHESTRATION_KEYS : List String :=
  ["__id__", "fun", "state", "__env__", "__sls__", "order", "watch", "watch_in",
   "require", "require_in", "prereq", "prereq_in"]

/-- One iteration of the option loop of `generate`: if option `optName` is
present in the keyword arguments, write `f` of its value under the document
key `docName`. -/
def maybeSet (kwargs : Payload) (optName docName : String) (f : Value → Value)
    (doc : Payload) : Payload :=
  match dictGet optName kwargs with
  | some v => dictSet docName (f v) doc
  | none => doc

/-- The `document` dict built by `generate(identifier, profile_uuid,
**kwargs)` before serialization.  `fresh_uuid` stands for the random
`uuid.uuid4()` drawn when `profile_uuid` is falsy (omitted, `None`, or the
empty string).  Each recognized option writes its own distinct document key,
so the unspecified iteration order of the Python dict cannot influence the
resulting document; the loop is rendered in a fixed order.  The options
`scope`, `removaldate`, `durationuntilremoval` and `consenttext` survive the
`VALID_PROPERTIES` filter but have no handler in the loop and are ignored. -/
def generateDocument (identifier : String) (profile_uuid : Option String)
    (fresh_uuid : String) (kwargs : Payload) : Except PyError Payload :=
  let effective_uuid :=
    match profile_uuid with
    | none => fresh_uuid
    | some s => if s = "" then fresh_uuid else s
  let doc : Payload :=
    [("PayloadScope", .str "System"),
     ("PayloadUUID", .str effective_uuid),
     ("PayloadVersion", .int 1),
     ("PayloadType", .str "Configuration"),
     ("PayloadIdentifier", .str identifier)]
  let doc := maybeSet kwargs "description" "PayloadDescription" (fun v => v) doc
  let doc := maybeSet kwargs "displayname" "PayloadDisplayName" (fun v => v) doc
  let doc := maybeSet kwargs "organization" "PayloadOrganization" (fun v => v) doc
  let doc := maybeSet kwargs "removaldisallowed" "PayloadRemovalDisallowed"
    (fun v => .bool (v = Value.bool true)) doc
  match dictGet "content" kwargs with
  | some v =>
    match transform_content (some v) identifier with
    | .error e => .error e
    | .ok tc => .ok (dictSet "PayloadContent" (.arr tc) doc)
  | none => .ok doc

/-- `generate` proper: the document serialized with `writePlistToString`. -/
def generate (identifier : String) (profile_uuid : Option String)
    (fresh_uuid : String) (kwargs : Payload) : Except PyError String :=
  match generateDocument identifier profile_uuid fresh_uuid kwargs with
  | .error e => .error e
  | .ok doc => .ok (writePlistToString (.dict doc))

/-! ## Dictionary lemmas -/

theorem dictGet_cons_self {k : String} {v : Value} {d : Payload} :
    dictGet k ((k, v) :: d) = some v := by
  simp [dictGet]

theorem dictGet_cons_ne {k k2 : String} {v : Value} {d : Payload} (h : k2 ≠ k) :
    dictGet k ((k2, v) :: d) = dictGet k d := by
  simp [dictGet, h]

theorem dictGet_dictSet_self (k : String) (v : Value) (d : Payload) :
    dictGet k (dictSet k v d) = some v := by
  induction d with
  | nil => simp [dictSet, dictGet]
  | cons kv rest ih =>
    obtain ⟨k2, v2⟩ := kv
    by_cases h : k2 = k
    · subst h; simp [dictSet, dictGet]
    · simp [dictSet, dictGet, h, ih]

theorem dictGet_dictSet_ne {k k2 : String} (v : Value) (d : Payload) (h : k2 ≠ k) :
    dictGet k (dictSet k2 v d) = dictGet k d := by
  induction d with
  | nil => simp [dictSet, dictGet, h]
  | cons kv rest ih =>
    obtain ⟨k3, v3⟩ := kv
    by_cases h3 : k3 = k2
    · subst h3; simp [dictSet, dictGet, h, ih]
    · by_cases h4 : k3 = k
      · subst h4; simp [dictSet, dictGet, h3]
      · simp [dictSet, dictGet, h3, h4, ih]

theorem dictGet_dictDel_self (k : String) (d : Payload) :
    dictGet k (dictDel k d) = none := by
  induction d with
  | nil => simp [dictDel, dictGet]
  | cons kv rest ih =>
    obtain ⟨k2, v2⟩ := kv
    by_cases h : k2 = k
    · subst h; simp [dictDel, ih]
    · simp [dictDel, dictGet, h, ih]

theorem dictGet_dictDel_ne {k k2 : String} (d : Payload) (h : k2 ≠ k) :
    dictGet k (dictDel k2 d) = dictGet k d := by
  induction d with
  | nil => simp [dictDel]
  | cons kv rest ih =>
    obtain ⟨k3, v3⟩ := kv
    by_cases h3 : k3 = k2
    · subst h3; simp [dictDel, dictGet, ih, h]
    · by_cases h4 : k3 = k
      · subst h4; simp [dictDel, dictGet, h3]
      · simp [dictDel, dictGet, h3, h4, ih]

/-! ## Lemmas about the transformation -/

theorem adKeysLoop_ok {p q : Payload} : ∀ {ks : List String},
    adKeysLoop p ks = .ok q → q = p := by
  intro ks
  induction ks with
  | nil => intro h; cases h; rfl
  | cons k rest ih =>
    intro h
    by_cases hk : k ∈ needs_flag
    · simp [adKeysLoop, hk] at h
    · simp only [adKeysLoop, if_neg hk] at h
      exact ih h

theorem add_activedirectory_keys_ok {p q : Payload}
    (h : add_activedirectory_keys p = .ok q) : q = p :=
  adKeysLoop_ok h

/-- The dictionary `_transform_payload` has built when it reaches the
`PayloadType` test (proof-side abbreviation of the source's local state). -/
def tpCommon (payload : Payload) (identifier : String) : Payload :=
  let p0 := dictDel "PayloadUUID" payload
  let hashed_uuid := content_to_uuid p0
  let p1 :=
    if dictHasKey "PayloadIdentifier" p0 then p0
    else dictSet "PayloadIdentifier" (.str (identifier ++ "." ++ hashed_uuid)) p0
  dictSet "PayloadVersion" (.int 1)
    (dictSet "PayloadEnabled" (.bool true)
      (dictSet "PayloadUUID" (.str (content_to_uuid p0)) p1))

theorem transform_payload_ok_eq {p : Payload} {id : String} {q : Payload}
    (h : transform_payload p id = .ok q) : q = tpCommon p id := by
  simp only [transform_payload] at h
  split at h
  · cases h
  · split at h
    · exact add_activedirectory_keys_ok h
    · cases h; rfl

theorem dictGet_tpCommon_uuid (p : Payload) (id : String) :
    dictGet "PayloadUUID" (tpCommon p id) =
      some (.str (content_to_uuid (dictDel "PayloadUUID" p))) := by
  unfold tpCommon
  rw [dictGet_dictSet_ne _ _ (by decide), dictGet_dictSet_ne _ _ (by decide),
    dictGet_dictSet_self]

theorem dictGet_tpCommon_enabled (p : Payload) (id : String) :
    dictGet "PayloadEnabled" (tpCommon p id) = some (.bool true) := by
  unfold tpCommon
  rw [dictGet_dictSet_ne _ _ (by decide), dictGet_dictSet_self]

theorem dictGet_tpCommon_version (p : Payload) (id : String) :
    dictGet "PayloadVersion" (tpCommon p id) = some (.int 1) := by
  unfold tpCommon
  rw [dictGet_dictSet_self]

theorem dictGet_tpCommon_frame (p : Payload) (id : String) (k : String)
    (h1 : k ≠ "PayloadUUID") (h2 : k ≠ "PayloadEnabled") (h3 : k ≠ "PayloadVersion")
    (h4 : k ≠ "PayloadIdentifier") :
    dictGet k (tpCommon p id) = dictGet k p := by
  unfold tpCommon
  rw [dictGet_dictSet_ne _ _ (Ne.symm h3), dictGet_dictSet_ne _ _ (Ne.symm h2),
    dictGet_dictSet_ne _ _ (Ne.symm h1)]
  by_cases hId : dictHasKey "PayloadIdentifier" (dictDel "PayloadUUID" p)
  · rw [if_pos hId, dictGet_dictDel_ne _ (Ne.symm h1)]
  · rw [if_neg hId, dictGet_dictSet_ne _ _ (Ne.symm h4),
      dictGet_dictDel_ne _ (Ne.symm h1)]

theorem dictGet_tpCommon_identifier_present (p : Payload) (id : String) (v : Value)
    (h : dictGet "PayloadIdentifier" p = some v) :
    dictGet "PayloadIdentifier" (tpCommon p id) = some v := by
  unfold tpCommon
  have hdel : dictGet "PayloadIdentifier" (dictDel "PayloadUUID" p) = some v := by
    rw [dictGet_dictDel_ne _ (by decide)]; exact h
  rw [dictGet_dictSet_ne _ _ (by decide), dictGet_dictSet_ne _ _ (by decide),
    dictGet_dictSet_ne _ _ (by decide), if_pos (by simp [dictHasKey, hdel])]
  exact hdel

theorem dictGet_tpCommon_identifier_absent (p : Payload) (id : String)
    (h : dictGet "PayloadIdentifier" p = none) :
    dictGet "PayloadIdentifier" (tpCommon p id) =
      some (.str (id ++ "." ++ content_to_uuid (dictDel "PayloadUUID" p))) := by
  unfold tpCommon
  have hdel : dictGet "PayloadIdentifier" (dictDel "PayloadUUID" p) = none := by
    rw [dictGet_dictDel_ne _ (by decide)]; exact h
  rw [dictGet_dictSet_ne _ _ (by decide), dictGet_dictSet_ne _ _ (by decide),
    dictGet_dictSet_ne _ _ (by decide), if_neg (by simp [dictHasKey, hdel]),
    dictGet_dictSet_self]

theorem transform_payload_ok_of_type {p : Payload} {id : String} {t : Value}
    (ht : dictGet "PayloadType" p = some t)
    (hne : t ≠ .str "com.apple.DirectoryService.managed") :
    transform_payload p id = .ok (tpCommon p id) := by
  have hT : dictGet "PayloadType" (tpCommon p id) = some t := by
    rw [dictGet_tpCommon_frame p id _ (by decide) (by decide) (by decide) (by decide)]
    exact ht
  simp only [tpCommon] at hT
  simp only [transform_payload]
  rw [hT]
  simp only [if_neg hne]
  rfl

/-! ## Shape of the derived UUID -/

/-- A lowercase hexadecimal digit (`0`-`9`, `a`-`f`). -/
def isHexLower (c : Char) : Bool :=
  (48 ≤ c.toNat && c.toNat ≤ 57) || (97 ≤ c.toNat && c.toNat ≤ 102)

/-- The claimed shape of a derived UUID: lowercase hex digits grouped
`8-4-4-4-12` with hyphens. -/
def uuidShape (s : String) : Prop :=
  ∃ a b c d e : List Char,
    s.data = a ++ '-' :: (b ++ '-' :: (c ++ '-' :: (d ++ '-' :: e))) ∧
    a.length = 8 ∧ b.length = 4 ∧ c.length = 4 ∧ d.length = 4 ∧ e.length = 12 ∧
    (a ++ b ++ c ++ d ++ e).all isHexLower = true

theorem hexChar_isHexLower : ∀ n < 16, isHexLower (hexChar n) = true := by
  decide

theorem byteHex_all_hex (b : Nat) : (byteHex b).all isHexLower = true := by
  have h1 := hexChar_isHexLower (b / 16 % 16) (Nat.mod_lt _ (by norm_num))
  have h2 := hexChar_isHexLower (b % 16) (Nat.mod_lt _ (by norm_num))
  simp [byteHex, h1, h2]

theorem hexlify_cons (b : Nat) (rest : List Nat) :
    hexlify (b :: rest) = byteHex b ++ hexlify rest := by
  simp [hexlify]

theorem hexlify_all_hex (bs : List Nat) : (hexlify bs).all isHexLower = true := by
  induction bs with
  | nil => rfl
  | cons b rest ih =>
    rw [hexlify_cons, List.all_append, byteHex_all_hex, ih]
    rfl

theorem hexlify_length (bs : List Nat) : (hexlify bs).length = 2 * bs.length := by
  induction bs with
  | nil => rfl
  | cons b rest ih =>
    rw [hexlify_cons, List.length_append, ih, List.length_cons]
    simp only [byteHex, List.length_cons, List.length_nil]
    omega

theorem md5Bytes_length (msg : List Nat) : (md5Bytes msg).length = 16 := by
  simp [md5Bytes, toLE4]

theorem all_take (f : Char → Bool) (n : Nat) (l : List Char) (h : l.all f = true) :
    (l.take n).all f = true :=
  List.all_eq_true.mpr fun x hx => List.all_eq_true.mp h x (List.take_subset _ _ hx)

theorem all_drop (f : Char → Bool) (n : Nat) (l : List Char) (h : l.all f = true) :
    (l.drop n).all f = true :=
  List.all_eq_true.mpr fun x hx => List.all_eq_true.mp h x (List.drop_subset _ _ hx)

theorem uuidShape_content_to_uuid (p : Payload) : uuidShape (content_to_uuid p) := by
  unfold content_to_uuid
  set cs := hexlify (md5Bytes (strBytes (writePlistToString (.dict p)))) with hcs
  have hlen : cs.length = 32 := by
    rw [hcs, hexlify_length, md5Bytes_length]
  have hhex : cs.all isHexLower = true := hexlify_all_hex _
  refine ⟨cs.take 8, (cs.drop 8).take 4, (cs.drop 12).take 4, (cs.drop 16).take 4,
    cs.drop 20, ?_, ?_, ?_, ?_, ?_, ?_, ?_⟩
  · rfl
  · simp [List.length_take, hlen]
  · simp [List.length_take, List.length_drop, hlen]
  · simp [List.length_take, List.length_drop, hlen]
  · simp [List.length_take, List.length_drop, hlen]
  · simp [List.length_drop, hlen]
  · simp only [List.all_append]
    rw [all_take _ _ _ hhex, all_take _ _ _ (all_drop _ _ _ hhex),
      all_take _ _ _ (all_drop _ _ _ hhex), all_take _ _ _ (all_drop _ _ _ hhex),
      all_drop _ _ _ hhex]
    rfl

/-! ## Lemmas about `_transform_content` -/

theorem transformList_ok (id : String) : ∀ (ps : List Value) (out : List Value),
    transformList id ps = .ok out →
    out.length = ps.length ∧
    ∀ i (hi : i < ps.length) (ho : i < out.length),
      ∃ kvs q, ps.get ⟨i, hi⟩ = .dict kvs ∧ transform_payload kvs id = .ok q ∧
        out.get ⟨i, ho⟩ = .dict q := by
  intro ps
  induction ps with
  | nil =>
    intro out h
    cases h
    exact ⟨rfl, fun i hi _ => absurd hi (by simp)⟩
  | cons p rest ih =>
    intro out h
    match p with
    | .str _ => simp [transformList] at h
    | .int _ => simp [transformList] at h
    | .bool _ => simp [transformList] at h
    | .arr _ => simp [transformList] at h
    | .dict kvs =>
      simp only [transformList] at h
      match hq : transform_payload kvs id with
      | .error e => rw [hq] at h; cases h
      | .ok q =>
        rw [hq] at h
        match hrest : transformList id rest with
        | .error e => rw [hrest] at h; cases h
        | .ok out2 =>
          rw [hrest] at h
          cases h
          obtain ⟨hlen, hidx⟩ := ih out2 hrest
          refine ⟨by simp [hlen], ?_⟩
          intro i hi ho
          match i with
          | 0 => exact ⟨kvs, q, rfl, hq, rfl⟩
          | i + 1 =>
            exact hidx i (by simpa using hi) (by simpa using ho)

/-! ## Lemmas about the inventory scan of `exists` -/

theorem scanPayloads_ok (id : String) : ∀ recs : List Payload,
    (∀ p ∈ recs, (dictGet "ProfileIdentifier" p).isSome = true) →
    scanPayloads id recs =
      .ok (recs.any fun p => dictGet "ProfileIdentifier" p = some (.str id)) := by
  intro recs
  induction recs with
  | nil => intro _; rfl
  | cons p rest ih =>
    intro h
    have hp := h p (by simp)
    match hv : dictGet "ProfileIdentifier" p with
    | none => rw [hv] at hp; cases hp
    | some v =>
      simp only [scanPayloads, hv]
      by_cases hmatch : v = .str id
      · subst hmatch
        simp [hv]
      · rw [if_neg hmatch, ih (fun q hq => h q (by simp [hq]))]
        simp [hv, hmatch]

theorem scanDomains_ok (id : String) : ∀ pm : ProfilesMap,
    (∀ d recs, (d, recs) ∈ pm → ∀ p ∈ recs, (dictGet "ProfileIdentifier" p).isSome = true) →
    scanDomains id pm =
      .ok (pm.any fun dr =>
        dr.2.any fun p => dictGet "ProfileIdentifier" p = some (.str id)) := by
  intro pm
  induction pm with
  | nil => intro _; rfl
  | cons dr rest ih =>
    intro h
    obtain ⟨d, recs⟩ := dr
    have hrecs := scanPayloads_ok id recs (h d recs (by simp))
    simp only [scanDomains, hrecs]
    by_cases hfound : recs.any (fun p => dictGet "ProfileIdentifier" p = some (.str id)) = true
    · rw [hfound]
      simp [hfound]
    · rw [Bool.not_eq_true] at hfound
      rw [hfound, ih (fun d2 recs2 hmem => h d2 recs2 (by simp [hmem]))]
      simp [hfound]

/-! ## Lemmas about `generate` -/

/-- The document keys `generate` can ever emit: the five base keys plus one
key per handled option (proof-side enumeration). -/
def DOCUMENT_KEYS : List String :=
  ["PayloadScope", "PayloadUUID", "PayloadVersion", "PayloadType", "PayloadIdentifier",
   "PayloadDescription", "PayloadDisplayName", "PayloadOrganization",
   "PayloadRemovalDisallowed", "PayloadContent"]

theorem dictGet_maybeSet_ne {k docName : String} (kwargs : Payload) (optName : String)
    (f : Value → Value) (doc : Payload) (h : k ≠ docName) :
    dictGet k (maybeSet kwargs optName docName f doc) = dictGet k doc := by
  cases hv : dictGet optName kwargs with
  | none => simp [maybeSet, hv]
  | some v => simp [maybeSet, hv, dictGet_dictSet_ne _ _ (Ne.symm h)]

/-- The document before the `content` option is handled (proof-side
abbreviation of the source's local `document` state). -/
def gdBase (identifier : String) (profile_uuid : Option String) (fresh_uuid : String)
    (kwargs : Payload) : Payload :=
  let effective_uuid :=
    match profile_uuid with
    | none => fresh_uuid
    | some s => if s = "" then fresh_uuid else s
  let doc : Payload :=
    [("PayloadScope", .str "System"),
     ("PayloadUUID", .str effective_uuid),
     ("PayloadVersion", .int 1),
     ("PayloadType", .str "Configuration"),
     ("PayloadIdentifier", .str identifier)]
  let doc := maybeSet kwargs "description" "PayloadDescription" (fun v => v) doc
  let doc := maybeSet kwargs "displayname" "PayloadDisplayName" (fun v => v) doc
  let doc := maybeSet kwargs "organization" "PayloadOrganization" (fun v => v) doc
  maybeSet kwargs "removaldisallowed" "PayloadRemovalDisallowed"
    (fun v => .bool (v = Value.bool true)) doc

theorem generateDocument_ok_eq {identifier : String} {pu : Option String} {fu : String}
    {kw : Payload} {doc : Payload}
    (h : generateDocument identifier pu fu kw = .ok doc) :
    (dictGet "content" kw = none ∧ doc = gdBase identifier pu fu kw) ∨
    (∃ v tc, dictGet "content" kw = some v ∧
      transform_content (some v) identifier = .ok tc ∧
      doc = dictSet "PayloadContent" (.arr tc) (gdBase identifier pu fu kw)) := by
  simp only [generateDocument] at h
  split at h
  next v heq =>
    split at h
    next e heq2 => cases h
    next tc heq2 =>
      cases h
      exact .inr ⟨v, tc, heq, heq2, rfl⟩
  next heq =>
    cases h
    exact .inl ⟨heq, rfl⟩

theorem dictGet_gdBase_scope (identifier : String) (pu : Option String) (fu : String)
    (kw : Payload) :
    dictGet "PayloadScope" (gdBase identifier pu fu kw) = some (.str "System") := by
  unfold gdBase
  rw [dictGet_maybeSet_ne _ _ _ _ (by decide), dictGet_maybeSet_ne _ _ _ _ (by decide),
    dictGet_maybeSet_ne _ _ _ _ (by decide), dictGet_maybeSet_ne _ _ _ _ (by decide),
    dictGet_cons_self]

theorem dictGet_gdBase_version (identifier : String) (pu : Option String) (fu : String)
    (kw : Payload) :
    dictGet "PayloadVersion" (gdBase identifier pu fu kw) = some (.int 1) := by
  unfold gdBase
  rw [dictGet_maybeSet_ne _ _ _ _ (by decide), dictGet_maybeSet_ne _ _ _ _ (by decide),
    dictGet_maybeSet_ne _ _ _ _ (by decide), dictGet_maybeSet_ne _ _ _ _ (by decide),
    dictGet_cons_ne (by decide), dictGet_cons_ne (by decide), dictGet_cons_self]

theorem dictGet_gdBase_type (identifier : String) (pu : Option String) (fu : String)
    (kw : Payload) :
    dictGet "PayloadType" (gdBase identifier pu fu kw) = some (.str "Configuration") := by
  unfold gdBase
  rw [dictGet_maybeSet_ne _ _ _ _ (by decide), dictGet_maybeSet_ne _ _ _ _ (by decide),
    dictGet_maybeSet_ne _ _ _ _ (by decide), dictGet_maybeSet_ne _ _ _ _ (by decide),
    dictGet_cons_ne (by decide), dictGet_cons_ne (by decide), dictGet_cons_ne (by decide),
    dictGet_cons_self]

theorem dictGet_gdBase_identifier (identifier : String) (pu : Option String) (fu : String)
    (kw : Payload) :
    dictGet "PayloadIdentifier" (gdBase identifier pu fu kw) = some (.str identifier) := by
  unfold gdBase
  rw [dictGet_maybeSet_ne _ _ _ _ (by decide), dictGet_maybeSet_ne _ _ _ _ (by decide),
    dictGet_maybeSet_ne _ _ _ _ (by decide), dictGet_maybeSet_ne _ _ _ _ (by decide),
    dictGet_cons_ne (by decide), dictGet_cons_ne (by decide), dictGet_cons_ne (by decide),
    dictGet_cons_ne (by decide), dictGet_cons_self]

theorem dictGet_gdBase_uuid (identifier : String) (pu : Option String) (fu : String)
    (kw : Payload) :
    dictGet "PayloadUUID" (gdBase identifier pu fu kw) =
      some (.str (match pu with
        | none => fu
        | some s => if s = "" then fu else s)) := by
  unfold gdBase
  rw [dictGet_maybeSet_ne _ _ _ _ (by decide), dictGet_maybeSet_ne _ _ _ _ (by decide),
    dictGet_maybeSet_ne _ _ _ _ (by decide), dictGet_maybeSet_ne _ _ _ _ (by decide),
    dictGet_cons_ne (by decide), dictGet_cons_self]

theorem generateDocument_foreign_none {identifier : String} {pu : Option String}
    {fu : String} {kw : Payload} {doc : Payload} {k : String}
    (hdoc : generateDocument identifier pu fu kw = .ok doc)
    (hk : k ∉ DOCUMENT_KEYS) : dictGet k doc = none := by
  have h1 : "PayloadScope" ≠ k := fun hc => hk (by rw [← hc]; decide)
  have h2 : "PayloadUUID" ≠ k := fun hc => hk (by rw [← hc]; decide)
  have h3 : "PayloadVersion" ≠ k := fun hc => hk (by rw [← hc]; decide)
  have h4 : "PayloadType" ≠ k := fun hc => hk (by rw [← hc]; decide)
  have h5 : "PayloadIdentifier" ≠ k := fun hc => hk (by rw [← hc]; decide)
  have h6 : k ≠ "PayloadDescription" := fun hc => hk (by rw [hc]; decide)
  have h7 : k ≠ "PayloadDisplayName" := fun hc => hk (by rw [hc]; decide)
  have h8 : k ≠ "PayloadOrganization" := fun hc => hk (by rw [hc]; decide)
  have h9 : k ≠ "PayloadRemovalDisallowed" := fun hc => hk (by rw [hc]; decide)
  have h10 : k ≠ "PayloadContent" := fun hc => hk (by rw [hc]; decide)
  have hbase : dictGet k (gdBase identifier pu fu kw) = none := by
    unfold gdBase
    rw [dictGet_maybeSet_ne _ _ _ _ h9, dictGet_maybeSet_ne _ _ _ _ h8,
      dictGet_maybeSet_ne _ _ _ _ h7, dictGet_maybeSet_ne _ _ _ _ h6,
      dictGet_cons_ne h1, dictGet_cons_ne h2, dictGet_cons_ne h3,
      dictGet_cons_ne h4, dictGet_cons_ne h5]
    rfl
  rcases generateDocument_ok_eq hdoc with ⟨_, rfl⟩ | ⟨v, tc, _, _, rfl⟩
  · exact hbase
  · rw [dictGet_dictSet_ne _ _ (Ne.symm h10)]
    exact hbase

/-! ## Claim C1 -/

/-- Claim C1: the claim says every allow-listed Active-Directory key of a
`com.apple.DirectoryService.managed` payload gets a companion `<key>Flag =
true`.  The code instead indexes the `needs_flag` *list* with the *string*
key (`needs_flag[k]`), raising `TypeError` at the first allow-listed key, so
such payloads make `_transform_payload` raise instead of gaining flag keys;
a payload of that type with no allow-listed key passes through the loop
untouched and indeed gains no flag key. -/
theorem ad_flag_injection_raises_typeError :
    transform_payload
      [("PayloadType", .str "com.apple.DirectoryService.managed"),
       ("ADDefaultUserShell", .str "/bin/zsh")] "com.example" = .error .typeError ∧
    transform_payload [("PayloadType", .str "com.apple.DirectoryService.managed")]
      "com.example" =
      .ok [("PayloadType", .str "com.apple.DirectoryService.managed"),
           ("PayloadIdentifier", .str "com.example.72257018-678f-1b35-6b2a-e8194dff3912"),
           ("PayloadUUID", .str "72257018-678f-1b35-6b2a-e8194dff3912"),
           ("PayloadEnabled", .bool true),
           ("PayloadVersion", .int 1)] := by
  constructor
  · decide
  · decide

/-! ## Claim C2 -/

/-- Claim C2 (counterexample): on a non-zero exit status `items` raises
before the `os.unlink` / `os.rmdir` cleanup — neither the temporary file nor
its directory is deleted on the failure path, contrary to the claim. -/
theorem items_failure_skips_cleanup :
    (items 1 []).result = .error .commandExecutionError ∧
    (items 1 []).tmpfileDeleted = false ∧
    (items 1 []).tmpdirDeleted = false := by
  decide

/-- Claim C2 (amended): `items` raises `CommandExecutionError` exactly when
the listing command's exit status is non-zero, and the temporary file and its
directory are deleted if and only if the command succeeded — on the failure
path nothing is cleaned up. -/
theorem items_error_iff_nonzero (retcode : Int) (parsed : ProfilesMap) :
    ((items retcode parsed).result = .error .commandExecutionError ↔ ¬retcode = 0) ∧
    ((items retcode parsed).result = .ok parsed ↔ retcode = 0) ∧
    ((items retcode parsed).tmpfileDeleted = true ↔ retcode = 0) ∧
    ((items retcode parsed).tmpdirDeleted = true ↔ retcode = 0) := by
  by_cases h : retcode = 0 <;> simp [items, h]

/-! ## Claim C3 -/

/-- Claim C3: the derived `PayloadUUID` of a transformed payload depends only
on the payload's content with the `PayloadUUID` key removed — two transforms
of contents that agree outside `PayloadUUID` (under any owner identifiers)
produce the identical string — and that string is the regrouped MD5 hexdigest
of the serialized content: lowercase hex digits in groups of 8-4-4-4-12
separated by hyphens. -/
theorem payload_uuid_deterministic_and_formatted
    (p1 p2 : Payload) (id1 id2 : String) (q1 q2 : Payload)
    (h1 : transform_payload p1 id1 = .ok q1)
    (h2 : transform_payload p2 id2 = .ok q2)
    (hsame : dictDel "PayloadUUID" p1 = dictDel "PayloadUUID" p2) :
    ∃ u : String,
      dictGet "PayloadUUID" q1 = some (.str u) ∧
      dictGet "PayloadUUID" q2 = some (.str u) ∧
      u = content_to_uuid (dictDel "PayloadUUID" p1) ∧
      uuidShape u := by
  refine ⟨content_to_uuid (dictDel "PayloadUUID" p1), ?_, ?_, rfl,
    uuidShape_content_to_uuid _⟩
  · rw [transform_payload_ok_eq h1, dictGet_tpCommon_uuid]
  · rw [transform_payload_ok_eq h2, dictGet_tpCommon_uuid, hsame]

/-- A fixture payload with no `PayloadUUID`. -/
def uuidFixtureA : Payload := [("PayloadType", .str "test.example")]

/-- The fixture with an extra `PayloadUUID`, which must not affect the
derived id. -/
def uuidFixtureB : Payload :=
  [("PayloadType", .str "test.example"),
   ("PayloadUUID", .str "00000000-0000-0000-0000-000000000000")]

/-- The transform of both fixtures. -/
def uuidFixtureOut : Payload :=
  [("PayloadType", .str "test.example"),
   ("PayloadIdentifier", .str "com.example.8a07352e-dbdd-9d98-7816-55d378cd6d1f"),
   ("PayloadUUID", .str "8a07352e-dbdd-9d98-7816-55d378cd6d1f"),
   ("PayloadEnabled", .bool true),
   ("PayloadVersion", .int 1)]

/-- Witness for claim C3 at concrete fixtures: the hypotheses hold by
computation and the conclusion follows by the theorem. -/
theorem payload_uuid_deterministic_and_formatted_witness :
    (transform_payload uuidFixtureA "com.example" = .ok uuidFixtureOut) ∧
    (transform_payload uuidFixtureB "com.example" = .ok uuidFixtureOut) ∧
    (dictDel "PayloadUUID" uuidFixtureA = dictDel "PayloadUUID" uuidFixtureB) ∧
    ∃ u : String,
      dictGet "PayloadUUID" uuidFixtureOut = some (.str u) ∧
      dictGet "PayloadUUID" uuidFixtureOut = some (.str u) ∧
      u = content_to_uuid (dictDel "PayloadUUID" uuidFixtureA) ∧
      uuidShape u :=
  ⟨by decide, by decide, by decide,
    payload_uuid_deterministic_and_formatted uuidFixtureA uuidFixtureB
      "com.example" "com.example" uuidFixtureOut uuidFixtureOut
      (by decide) (by decide) (by decide)⟩

/-! ## Claim C9 -/

/-- Claim C9: for a payload whose `PayloadType` is present and not the
Active-Directory type, the transform succeeds and changes nothing except
`PayloadUUID` (set to the derived id), `PayloadEnabled`, `PayloadVersion`,
and `PayloadIdentifier`, the latter added only when absent and kept verbatim
when present; every other key's value is looked up unchanged. -/
theorem transform_payload_frame
    (p : Payload) (id : String) (t : Value)
    (htype : dictGet "PayloadType" p = some t)
    (hne : t ≠ .str "com.apple.DirectoryService.managed") :
    ∃ q, transform_payload p id = .ok q ∧
      (∀ k, k ≠ "PayloadUUID" → k ≠ "PayloadEnabled" → k ≠ "PayloadVersion" →
        k ≠ "PayloadIdentifier" → dictGet k q = dictGet k p) ∧
      dictGet "PayloadUUID" q = some (.str (content_to_uuid (dictDel "PayloadUUID" p))) ∧
      dictGet "PayloadEnabled" q = some (.bool true) ∧
      dictGet "PayloadVersion" q = some (.int 1) ∧
      (∀ v, dictGet "PayloadIdentifier" p = some v →
        dictGet "PayloadIdentifier" q = some v) ∧
      (dictGet "PayloadIdentifier" p = none →
        dictGet "PayloadIdentifier" q =
          some (.str (id ++ "." ++ content_to_uuid (dictDel "PayloadUUID" p)))) := by
  refine ⟨tpCommon p id, transform_payload_ok_of_type htype hne, ?_,
    dictGet_tpCommon_uuid p id, dictGet_tpCommon_enabled p id,
    dictGet_tpCommon_version p id, ?_, ?_⟩
  · intro k hk1 hk2 hk3 hk4
    exact dictGet_tpCommon_frame p id k hk1 hk2 hk3 hk4
  · intro v hv
    exact dictGet_tpCommon_identifier_present p id v hv
  · intro hnone
    exact dictGet_tpCommon_identifier_absent p id hnone

/-- A fixture payload with a custom key, for the frame witness. -/
def frameFixture : Payload :=
  [("PayloadType", .str "test.example"), ("CustomSetting", .str "kept")]

/-- Witness for claim C9 at a concrete payload. -/
theorem transform_payload_frame_witness :
    (dictGet "PayloadType" frameFixture = some (.str "test.example")) ∧
    (Value.str "test.example" ≠ .str "com.apple.DirectoryService.managed") ∧
    ∃ q, transform_payload frameFixture "com.example" = .ok q ∧
      (∀ k, k ≠ "PayloadUUID" → k ≠ "PayloadEnabled" → k ≠ "PayloadVersion" →
        k ≠ "PayloadIdentifier" → dictGet k q = dictGet k frameFixture) ∧
      dictGet "PayloadUUID" q =
        some (.str (content_to_uuid (dictDel "PayloadUUID" frameFixture))) ∧
      dictGet "PayloadEnabled" q = some (.bool true) ∧
      dictGet "PayloadVersion" q = some (.int 1) ∧
      (∀ v, dictGet "PayloadIdentifier" frameFixture = some v →
        dictGet "PayloadIdentifier" q = some v) ∧
      (dictGet "PayloadIdentifier" frameFixture = none →
        dictGet "PayloadIdentifier" q =
          some (.str ("com.example" ++ "." ++
            content_to_uuid (dictDel "PayloadUUID" frameFixture)))) :=
  ⟨by decide, by decide,
    transform_payload_frame frameFixture "com.example" (.str "test.example")
      (by decide) (by decide)⟩

/-! ## Claim C10 -/

/-- The input payload of the idempotence experiment: no `PayloadEnabled`,
`PayloadVersion` or `PayloadIdentifier`. -/
def idemFixtureP : Payload := [("PayloadType", .str "idem.example")]

/-- `transform_payload idemFixtureP "com.example"`. -/
def idemFixtureQ1 : Payload :=
  [("PayloadType", .str "idem.example"),
   ("PayloadIdentifier", .str "com.example.38791781-e9ab-ee59-3baa-dc341ea5377e"),
   ("PayloadUUID", .str "38791781-e9ab-ee59-3baa-dc341ea5377e"),
   ("PayloadEnabled", .bool true),
   ("PayloadVersion", .int 1)]

/-- `transform_payload idemFixtureQ1 "com.example"`: the injected keys now
participate in the content hash, so the derived id changes. -/
def idemFixtureQ2 : Payload :=
  [("PayloadType", .str "idem.example"),
   ("PayloadIdentifier", .str "com.example.38791781-e9ab-ee59-3baa-dc341ea5377e"),
   ("PayloadEnabled", .bool true),
   ("PayloadVersion", .int 1),
   ("PayloadUUID", .str "8d4147ed-1f67-8929-ff3f-8b4946bb3055")]

/-- Claim C10: the payload transformation is not idempotent with respect to
the derived id — for a payload initially lacking `PayloadEnabled`,
`PayloadVersion` and `PayloadIdentifier`, transforming the already
transformed payload yields a different `PayloadUUID`, because the keys
injected by the first transform (all except `PayloadUUID` itself, which is
stripped before hashing) are part of the hashed content. -/
theorem transform_not_idempotent :
    ∃ (p : Payload) (id : String) (q1 q2 : Payload),
      dictGet "PayloadEnabled" p = none ∧
      dictGet "PayloadVersion" p = none ∧
      dictGet "PayloadIdentifier" p = none ∧
      transform_payload p id = .ok q1 ∧
      transform_payload q1 id = .ok q2 ∧
      dictGet "PayloadUUID" q1 ≠ dictGet "PayloadUUID" q2 :=
  ⟨idemFixtureP, "com.example", idemFixtureQ1, idemFixtureQ2,
    by decide, by decide, by decide, by decide, by decide, by decide⟩

/-! ## Claim C7 -/

/-- Claim C7: `_transform_content` maps an empty or absent content to the
empty sequence without error; on success it returns exactly one transformed
payload per input payload, in input order; and each successfully transformed
payload carries `PayloadEnabled = true` and `PayloadVersion = 1`
(overwriting any prior value, since they are written unconditionally), with
`PayloadIdentifier` set to `"<owner>.<derived-uuid>"` exactly when the input
had none. -/
theorem transform_content_shape (id : String) :
    transform_content none id = .ok [] ∧
    transform_content (some (.arr [])) id = .ok [] ∧
    (∀ ps out, transform_content (some (.arr ps)) id = .ok out →
      out.length = ps.length ∧
      ∀ i (hi : i < ps.length) (ho : i < out.length),
        ∃ kvs q, ps.get ⟨i, hi⟩ = .dict kvs ∧ transform_payload kvs id = .ok q ∧
          out.get ⟨i, ho⟩ = .dict q) ∧
    (∀ kvs q, transform_payload kvs id = .ok q →
      dictGet "PayloadEnabled" q = some (.bool true) ∧
      dictGet "PayloadVersion" q = some (.int 1) ∧
      (dictGet "PayloadIdentifier" kvs = none →
        dictGet "PayloadIdentifier" q =
          some (.str (id ++ "." ++ content_to_uuid (dictDel "PayloadUUID" kvs)))) ∧
      (∀ v, dictGet "PayloadIdentifier" kvs = some v →
        dictGet "PayloadIdentifier" q = some v)) := by
  refine ⟨rfl, rfl, ?_, ?_⟩
  · intro ps out h
    have h2 : transformList id ps = .ok out := by
      cases ps with
      | nil =>
        simp only [transform_content, pyTruthy, List.isEmpty_nil, Bool.not_true,
          if_neg (by decide : ¬False)] at h
        cases h
        rfl
      | cons p rest =>
        simpa [transform_content, pyTruthy] using h
    exact transformList_ok id ps out h2
  · intro kvs q h
    have hq := transform_payload_ok_eq h
    subst hq
    exact ⟨dictGet_tpCommon_enabled _ _, dictGet_tpCommon_version _ _,
      fun hnone => dictGet_tpCommon_identifier_absent _ _ hnone,
      fun v hv => dictGet_tpCommon_identifier_present _ _ v hv⟩

/-- Witness for claim C7: the absent-content case at a concrete identifier,
by the theorem. -/
theorem transform_content_shape_witness :
    transform_content none "com.example" = .ok [] :=
  (transform_content_shape "com.example").1

/-! ## Claim C6 -/

/-- Claim C6: when every inventory record carries a `ProfileIdentifier`,
`exists` returns true iff some record in some domain has `ProfileIdentifier`
equal to the identifier (and never raises); it returns false on the empty
inventory; and an error raised by `items()` propagates unchanged. -/
theorem exists_iff_record_matches (pm : ProfilesMap) (identifier : String) (e : PyError)
    (hwf : ∀ dr ∈ pm, ∀ p ∈ dr.2, (dictGet "ProfileIdentifier" p).isSome = true) :
    (profile_exists (.ok pm) identifier = .ok true ↔
      ∃ d recs p, (d, recs) ∈ pm ∧ p ∈ recs ∧
        dictGet "ProfileIdentifier" p = some (.str identifier)) ∧
    (profile_exists (.ok pm) identifier = .ok true ∨
      profile_exists (.ok pm) identifier = .ok false) ∧
    profile_exists (.ok ([] : ProfilesMap)) identifier = .ok false ∧
    profile_exists (.error e) identifier = .error e := by
  have hscan := scanDomains_ok identifier pm
    (fun d recs hmem p hp => hwf (d, recs) hmem p hp)
  have hpe : profile_exists (.ok pm) identifier = scanDomains identifier pm := rfl
  refine ⟨?_, ?_, rfl, rfl⟩
  · rw [hpe, hscan]
    constructor
    · intro h
      injection h with h
      rcases List.any_eq_true.mp h with ⟨⟨d, recs⟩, hmem, hinner⟩
      rcases List.any_eq_true.mp hinner with ⟨p, hp, hpmatch⟩
      exact ⟨d, recs, p, hmem, hp, of_decide_eq_true hpmatch⟩
    · rintro ⟨d, recs, p, hmem, hp, hmatch⟩
      congr 1
      exact List.any_eq_true.mpr
        ⟨(d, recs), hmem, List.any_eq_true.mpr ⟨p, hp, decide_eq_true hmatch⟩⟩
  · rw [hpe, hscan]
    cases pm.any fun dr =>
        dr.2.any fun p => dictGet "ProfileIdentifier" p = some (.str identifier)
    · right; rfl
    · left; rfl

/-- A two-record inventory fixture. -/
def inventoryFixture : ProfilesMap :=
  [("_computerlevel",
    [[("ProfileIdentifier", .str "com.installed.a")],
     [("ProfileIdentifier", .str "com.installed.b")]])]

/-- Witness for claim C6: the hypothesis holds for the fixture by computation,
and the theorem's iff finds the installed profile. -/
theorem exists_iff_record_matches_witness :
    (∀ dr ∈ inventoryFixture, ∀ p ∈ dr.2,
      (dictGet "ProfileIdentifier" p).isSome = true) ∧
    profile_exists (.ok inventoryFixture) "com.installed.b" = .ok true :=
  ⟨by decide,
    (exists_iff_record_matches inventoryFixture "com.installed.b" .keyError
        (by decide)).1.mpr
      ⟨"_computerlevel",
       [[("ProfileIdentifier", .str "com.installed.a")],
        [("ProfileIdentifier", .str "com.installed.b")]],
       [("ProfileIdentifier", .str "com.installed.b")],
       by decide, by decide, by decide⟩⟩

/-! ## Claim C4 -/

/-- Claim C4 (counterexample): `profile_uuid` supplied as the empty string is
*not* used verbatim — `if not profile_uuid` treats every falsy value as
omitted, so the document gets the freshly drawn UUID instead. -/
theorem generate_empty_uuid_not_verbatim :
    generateDocument "com.test.profile" (some "")
        "11111111-2222-3333-4444-555555555555" [] =
      .ok [("PayloadScope", .str "System"),
           ("PayloadUUID", .str "11111111-2222-3333-4444-555555555555"),
           ("PayloadVersion", .int 1),
           ("PayloadType", .str "Configuration"),
           ("PayloadIdentifier", .str "com.test.profile")] ∧
    dictGet "PayloadUUID"
        [("PayloadScope", .str "System"),
         ("PayloadUUID", .str "11111111-2222-3333-4444-555555555555"),
         ("PayloadVersion", .int 1),
         ("PayloadType", .str "Configuration"),
         ("PayloadIdentifier", .str "com.test.profile")] ≠ some (.str "") := by
  constructor
  · decide
  · decide

/-- Claim C4 (amended): every successful `generate` document carries
`PayloadScope = "System"`, `PayloadVersion = 1`, `PayloadType =
"Configuration"` and `PayloadIdentifier = identifier`; the supplied
`profile_uuid` is used verbatim when it is non-empty, while an omitted
`profile_uuid` is replaced by the freshly drawn one. -/
theorem generate_base_document
    (identifier : String) (profile_uuid : Option String) (fresh_uuid : String)
    (kwargs : Payload) (doc : Payload)
    (hdoc : generateDocument identifier profile_uuid fresh_uuid kwargs = .ok doc) :
    dictGet "PayloadScope" doc = some (.str "System") ∧
    dictGet "PayloadVersion" doc = some (.int 1) ∧
    dictGet "PayloadType" doc = some (.str "Configuration") ∧
    dictGet "PayloadIdentifier" doc = some (.str identifier) ∧
    (∀ s, profile_uuid = some s → s ≠ "" →
      dictGet "PayloadUUID" doc = some (.str s)) ∧
    (profile_uuid = none → dictGet "PayloadUUID" doc = some (.str fresh_uuid)) := by
  have key : ∀ k, k ≠ "PayloadContent" →
      dictGet k doc = dictGet k (gdBase identifier profile_uuid fresh_uuid kwargs) := by
    rcases generateDocument_ok_eq hdoc with ⟨_, rfl⟩ | ⟨v, tc, _, _, rfl⟩
    · intro k _; rfl
    · intro k hk; rw [dictGet_dictSet_ne _ _ (Ne.symm hk)]
  refine ⟨?_, ?_, ?_, ?_, ?_, ?_⟩
  · rw [key _ (by decide), dictGet_gdBase_scope]
  · rw [key _ (by decide), dictGet_gdBase_version]
  · rw [key _ (by decide), dictGet_gdBase_type]
  · rw [key _ (by decide), dictGet_gdBase_identifier]
  · intro s hs hne
    rw [key _ (by decide), dictGet_gdBase_uuid, hs]
    simp [hne]
  · intro hn
    rw [key _ (by decide), dictGet_gdBase_uuid, hn]

/-- Witness for claim C4 (amended) at a concrete call. -/
theorem generate_base_document_witness :
    (generateDocument "com.x" (some "fixed-uuid") "fresh-uuid" [] =
      .ok [("PayloadScope", .str "System"),
           ("PayloadUUID", .str "fixed-uuid"),
           ("PayloadVersion", .int 1),
           ("PayloadType", .str "Configuration"),
           ("PayloadIdentifier", .str "com.x")]) ∧
    dictGet "PayloadScope"
        [("PayloadScope", .str "System"),
         ("PayloadUUID", .str "fixed-uuid"),
         ("PayloadVersion", .int 1),
         ("PayloadType", .str "Configuration"),
         ("PayloadIdentifier", .str "com.x")] = some (.str "System") :=
  ⟨by decide,
    (generate_base_document "com.x" (some "fixed-uuid") "fresh-uuid" []
        [("PayloadScope", .str "System"),
         ("PayloadUUID", .str "fixed-uuid"),
         ("PayloadVersion", .int 1),
         ("PayloadType", .str "Configuration"),
         ("PayloadIdentifier", .str "com.x")] (by decide)).1⟩

/-! ## Claim C5 -/

/-- Claim C5: the document produced by `generate` depends on the options only
through the recognized `VALID_PROPERTIES` — two calls whose options agree on
those keys produce the identical result, so orchestration/control keys and
unrecognized keys cannot influence it — and no key outside the fixed document
vocabulary (in particular no orchestration key) ever appears in the
document. -/
theorem generate_ignores_foreign_keys
    (identifier : String) (profile_uuid : Option String) (fresh_uuid : String)
    (kwargs1 kwargs2 : Payload)
    (h : ∀ k ∈ VALID_PROPERTIES, dictGet k kwargs1 = dictGet k kwargs2) :
    generateDocument identifier profile_uuid fresh_uuid kwargs1 =
      generateDocument identifier profile_uuid fresh_uuid kwargs2 ∧
    (∀ doc, generateDocument identifier profile_uuid fresh_uuid kwargs1 = .ok doc →
      (∀ k ∈ ORCHESTRATION_KEYS, dictGet k doc = none) ∧
      (∀ k, dictGet k doc ≠ none → k ∈ DOCUMENT_KEYS)) := by
  have hd := h "description" (by decide)
  have hdn := h "displayname" (by decide)
  have ho := h "organization" (by decide)
  have hr := h "removaldisallowed" (by decide)
  have hc := h "content" (by decide)
  constructor
  · simp only [generateDocument, maybeSet, hd, hdn, ho, hr, hc]
  · intro doc hdoc
    constructor
    · intro k hk
      fin_cases hk <;> exact generateDocument_foreign_none hdoc (by decide)
    · intro k hne
      by_contra hk
      exact hne (generateDocument_foreign_none hdoc hk)

/-- Options fixture with an orchestration key. -/
def kwargsFixture1 : Payload :=
  [("require", .str "other_state"), ("description", .str "shared description")]

/-- Options fixture with an unrecognized key instead. -/
def kwargsFixture2 : Payload :=
  [("description", .str "shared description"), ("unknownoption", .int 5)]

/-- Witness for claim C5: the two option fixtures agree on every recognized
property, and the theorem makes the two documents identical. -/
theorem generate_ignores_foreign_keys_witness :
    (∀ k ∈ VALID_PROPERTIES, dictGet k kwargsFixture1 = dictGet k kwargsFixture2) ∧
    generateDocument "com.x" none "fresh-uuid" kwargsFixture1 =
      generateDocument "com.x" none "fresh-uuid" kwargsFixture2 :=
  ⟨by decide,
    (generate_ignores_foreign_keys "com.x" none "fresh-uuid"
        kwargsFixture1 kwargsFixture2 (by decide)).1⟩

/-! ## Claim C8 -/

/-- Claim C8: when the `removaldisallowed` option is passed with value `v`,
the document's `PayloadRemovalDisallowed` is a boolean that is true exactly
when `v` is the boolean `True` (`v is True` in the source) — any other value,
including truthy non-booleans, yields false. -/
theorem removaldisallowed_strict_boolean
    (identifier : String) (profile_uuid : Option String) (fresh_uuid : String)
    (kwargs : Payload) (v : Value) (doc : Payload)
    (hv : dictGet "removaldisallowed" kwargs = some v)
    (hdoc : generateDocument identifier profile_uuid fresh_uuid kwargs = .ok doc) :
    ∃ b : Bool, dictGet "PayloadRemovalDisallowed" doc = some (.bool b) ∧
      (b = true ↔ v = Value.bool true) := by
  have key : dictGet "PayloadRemovalDisallowed" doc =
      dictGet "PayloadRemovalDisallowed"
        (gdBase identifier profile_uuid fresh_uuid kwargs) := by
    rcases generateDocument_ok_eq hdoc with ⟨_, rfl⟩ | ⟨v2, tc, _, _, rfl⟩
    · rfl
    · rw [dictGet_dictSet_ne _ _ (by decide)]
  rw [key]
  unfold gdBase maybeSet
  rw [hv]
  refine ⟨decide (v = Value.bool true), ?_, by simp⟩
  exact dictGet_dictSet_self _ _ _

/-- Options fixture: a truthy but non-boolean `removaldisallowed`. -/
def kwargsFixture8 : Payload := [("removaldisallowed", .int 1)]

/-- Witness for claim C8: the integer `1` is truthy in Python but is not the
boolean `True`, so the document says removal is allowed. -/
theorem removaldisallowed_strict_boolean_witness :
    (dictGet "removaldisallowed" kwargsFixture8 = some (.int 1)) ∧
    (generateDocument "com.x" none "fresh-uuid" kwargsFixture8 =
      .ok [("PayloadScope", .str "System"),
           ("PayloadUUID", .str "fresh-uuid"),
           ("PayloadVersion", .int 1),
           ("PayloadType", .str "Configuration"),
           ("PayloadIdentifier", .str "com.x"),
           ("PayloadRemovalDisallowed", .bool false)]) ∧
    ∃ b : Bool,
      dictGet "PayloadRemovalDisallowed"
        [("PayloadScope", .str "System"),
         ("PayloadUUID", .str "fresh-uuid"),
         ("PayloadVersion", .int 1),
         ("PayloadType", .str "Configuration"),
         ("PayloadIdentifier", .str "com.x"),
         ("PayloadRemovalDisallowed", .bool false)] = some (.bool b) ∧
      (b = true ↔ Value.int 1 = Value.bool true) :=
  ⟨by decide, by decide,
    removaldisallowed_strict_boolean "com.x" none "fresh-uuid" kwargsFixture8
      (.int 1)
      [("PayloadScope", .str "System"),
       ("PayloadUUID", .str "fresh-uuid"),
       ("PayloadVersion", .int 1),
       ("PayloadType", .str "Configuration"),
       ("PayloadIdentifier", .str "com.x"),
       ("PayloadRemovalDisallowed", .bool false)]
      (by decide) (by decide)⟩
